import Mathlib

/-!
Verification of the Supgen (SupportGenie) customer-support assistant.

Shallow embedding of the message-handling and intent-to-action pipeline:
the SQLite-backed stores (`src/services/database.py`), the chat agent
(`src/agents/chat_agent.py`), the action agent (`src/agents/action_agent.py`),
the Gemini client fallback behaviour (`src/services/gemini_service.py`) and
the HTTP boundary layer (`src/app.py`).

External collaborators (the Gemini model, the random source, the email
service, injected infrastructure faults) are passed in as explicit
environment values; fallible code returns `Except`.  Machine-level detail
(SQL execution, JSON serialisation) is modelled by its observable effect on
the stored rows.
-/

set_option autoImplicit false

namespace Supgen

/-- A row of the `documents` table: id, filename, raw extracted text,
AI-structured text, and the soft-delete timestamp (`NULL` = live).
The `uploaded_at` column is not modelled; no verified property reads it. -/
structure Document where
  id : Nat
  filename : String
  original_content : String
  structured_content : String
  deleted_at : Option Nat
  deriving Repr, DecidableEq

/-- A row of the `conversations` table (satisfaction rating and start
timestamp omitted; no verified property reads them). -/
structure Conversation where
  id : Nat
  customer_name : String
  customer_email : Option String
  language : String
  status : String
  deriving Repr, DecidableEq

/-- A row of the `messages` table.  The `timestamp` column is realised by
list position: `save_message` appends, and reads preserve order. -/
structure Message where
  id : Nat
  conversation_id : Nat
  sender : String
  message : String
  source_document_id : Option Nat
  deriving Repr, DecidableEq

/-- A row of the `actions` table.  `action_data` is stored serialized
(`json.dumps`); we model the serialized payload as an association list of
string keys and values. -/
structure Action where
  id : Nat
  conversation_id : Nat
  action_type : String
  action_data : List (String × String)
  status : String
  deriving Repr, DecidableEq

/-- The SQLite database state.  `nextMessageId` / `nextActionId` model the
AUTOINCREMENT counters of the corresponding tables. -/
structure DB where
  documents : List Document
  conversations : List Conversation
  messages : List Message
  actions : List Action
  nextMessageId : Nat
  nextActionId : Nat
  deriving Repr, DecidableEq

/-- Characters of a string, lowercased as SQLite `LIKE` folds ASCII case. -/
def lowerList (s : String) : List Char :=
  s.toList.map Char.toLower

/-- Substring test on char lists: `needle` occurs inside `hay`. -/
def containsSub (hay needle : List Char) : Bool :=
  match hay with
  | [] => needle.isEmpty
  | _ :: rest => needle.isPrefixOf hay || containsSub rest needle

/-- `content LIKE '%keyword%'` in SQLite: case-insensitive (ASCII)
substring match. -/
def likeContains (content keyword : String) : Bool :=
  containsSub (lowerList content) (lowerList keyword)

/-- One disjunct of the search WHERE clause:
`(structured_content LIKE ? OR filename LIKE ?)` for a keyword. -/
def docMatchesKeyword (d : Document) (keyword : String) : Bool :=
  likeContains d.structured_content keyword || likeContains d.filename keyword

/-- A document matches if any keyword matches (`" OR ".join(conditions)`). -/
def docMatches (keywords : List String) (d : Document) : Bool :=
  keywords.any (docMatchesKeyword d)

/-- `Database.search_documents` (`src/services/database.py:166`).
The query is built as `SELECT ... WHERE <c1> OR <c2> ... LIMIT 3` with one
condition per keyword; with an empty keyword list the WHERE clause is empty,
the SQL is malformed and `cursor.execute` raises (modelled as `.error`).
Note the query has no `deleted_at IS NULL` condition: soft-deleted rows are
searched like live ones. -/
def DB.search_documents (db : DB) (keywords : List String) :
    Except String (List Document) :=
  if keywords.isEmpty then
    Except.error "sqlite3.OperationalError: incomplete input (WHERE clause with no conditions)"
  else
    Except.ok ((db.documents.filter (docMatches keywords)).take 3)

/-- `Database.get_all_documents` (`src/services/database.py:116`):
`WHERE deleted_at IS NULL`. -/
def DB.get_all_documents (db : DB) : List Document :=
  db.documents.filter (fun d => d.deleted_at.isNone)

/-- `Database.delete_document` (`src/services/database.py:429`):
`SET deleted_at = CURRENT_TIMESTAMP WHERE id = ? AND deleted_at IS NULL`,
returning `rowcount > 0`. -/
def DB.delete_document (db : DB) (document_id : Nat) (now : Nat) : Bool × DB :=
  let hit := db.documents.any (fun d => d.id = document_id && d.deleted_at.isNone)
  (hit,
   { db with
      documents := db.documents.map (fun d =>
        if d.id = document_id && d.deleted_at.isNone then
          { d with deleted_at := some now }
        else d) })

/-- `Database.save_message` (`src/services/database.py:222`): one INSERT
with immediate commit; id from AUTOINCREMENT. -/
def DB.save_message (db : DB) (conversation_id : Nat) (sender message : String)
    (source_document_id : Option Nat) : DB :=
  { db with
      messages := db.messages ++
        [⟨db.nextMessageId, conversation_id, sender, message, source_document_id⟩],
      nextMessageId := db.nextMessageId + 1 }

/-- `Database.get_conversation_messages` (`src/services/database.py:243`):
rows of the conversation in timestamp (= insertion) order. -/
def DB.get_conversation_messages (db : DB) (conversation_id : Nat) : List Message :=
  db.messages.filter (fun m => m.conversation_id = conversation_id)

/-- `Database.get_conversation_by_id` (`src/services/database.py:307`). -/
def DB.get_conversation_by_id (db : DB) (conversation_id : Nat) : Option Conversation :=
  db.conversations.find? (fun c => c.id = conversation_id)

/-- `Database.get_conversation_language` (`src/services/database.py:457`):
the row's language, or `"en"` when the conversation does not exist. -/
def DB.get_conversation_language (db : DB) (conversation_id : Nat) : String :=
  match db.conversations.find? (fun c => c.id = conversation_id) with
  | some c => c.language
  | none => "en"

/-- `Database.create_action` (`src/services/database.py:352`): INSERT with
the schema default `status = 'pending'`; returns the new row id (exposed
here as `db.nextActionId`). -/
def DB.create_action (db : DB) (conversation_id : Nat) (action_type : String)
    (action_data : List (String × String)) : DB :=
  { db with
      actions := db.actions ++
        [⟨db.nextActionId, conversation_id, action_type, action_data, "pending"⟩],
      nextActionId := db.nextActionId + 1 }

/-- `Database.update_action_status` (`src/services/database.py:372`):
`UPDATE actions SET status = ? WHERE id = ?`. -/
def DB.update_action_status (db : DB) (action_id : Nat) (status : String) : DB :=
  { db with
      actions := db.actions.map (fun a =>
        if a.id = action_id then { a with status := status } else a) }

/-! ## Keyword Extractor (`ChatAgent._extract_keywords`, `src/agents/chat_agent.py:128`) -/

/-- The fixed stop-word set of `ChatAgent._extract_keywords`. -/
def stop_words : List String :=
  ["i", "me", "my", "myself", "we", "our", "ours", "ourselves", "you", "your",
   "yours", "yourself", "yourselves", "he", "him", "his", "himself", "she",
   "her", "hers", "herself", "it", "its", "itself", "they", "them", "their",
   "theirs", "themselves", "what", "which", "who", "whom", "this", "that",
   "these", "those", "am", "is", "are", "was", "were", "be", "been", "being",
   "have", "has", "had", "having", "do", "does", "did", "doing", "a", "an",
   "the", "and", "but", "if", "or", "because", "as", "until", "while", "of",
   "at", "by", "for", "with", "about", "against", "between", "into", "through",
   "during", "before", "after", "above", "below", "to", "from", "up", "down",
   "in", "out", "on", "off", "over", "under", "again", "further", "then",
   "once", "can", "will", "just", "should", "now", "how", "where", "when"]

/-- Python `str.split()` over a char list: split on whitespace runs,
dropping empty tokens.  `acc` holds the current token reversed. -/
def splitWsAux : List Char → List Char → List (List Char)
  | [], acc => if acc.isEmpty then [] else [acc.reverse]
  | c :: cs, acc =>
    if c.isWhitespace then
      if acc.isEmpty then splitWsAux cs [] else acc.reverse :: splitWsAux cs []
    else splitWsAux cs (c :: acc)

/-- `message.lower().split()`: lowercase, then whitespace-split. -/
def rawTokens (message : String) : List (List Char) :=
  splitWsAux (lowerList message) []

/-- `''.join(char for char in word if char.isalnum())`; Python `isalnum`
is modelled over the ASCII range. -/
def cleanWord (w : List Char) : List Char :=
  w.filter Char.isAlphanum

/-- The keep condition of the extraction loop:
`if clean_word and clean_word not in stop_words and len(clean_word) > 2`. -/
def keepKeyword (c : String) : Bool :=
  !(c == "") && !(stop_words.contains c) && decide (c.length > 2)

/-- The keyword list accumulated by the loop, in message order. -/
def candidateKeywords (message : String) : List String :=
  ((rawTokens message).map (fun w => String.mk (cleanWord w))).filter keepKeyword

/-- `ChatAgent._extract_keywords`: filtered tokens, deduplicated
(`list(set(keywords))`; the set's iteration order is unspecified in
Python, realised here by `List.dedup`) and truncated to 5. -/
def extract_keywords (message : String) : List String :=
  ((candidateKeywords message).dedup).take 5

/-! ## Context Retriever (`ChatAgent._search_relevant_documents`,
`src/agents/chat_agent.py:88`) -/

/-- A document as returned by `search_documents` to the chat agent:
`{'id': ..., 'filename': ..., 'content': structured_content}`. -/
structure DocFrag where
  id : Nat
  filename : String
  content : String
  deriving Repr, DecidableEq

/-- Row-to-dict conversion done in `Database.search_documents`. -/
def Document.toFrag (d : Document) : DocFrag :=
  ⟨d.id, d.filename, d.structured_content⟩

/-- The context-limiting loop of `_search_relevant_documents`: accumulate
documents while the running total stays strictly under 8000 characters;
the first document that would cross the cap is truncated to the remaining
budget if that remainder exceeds 500 characters, otherwise dropped; the
loop breaks either way. -/
def limitDocsAux : List DocFrag → Nat → List DocFrag
  | [], _ => []
  | d :: rest, total =>
    let dc := d.content.length
    if total + dc < 8000 then
      d :: limitDocsAux rest (total + dc)
    else
      let remaining := 8000 - total
      if remaining > 500 then
        [{ d with content := String.mk (d.content.toList.take remaining) }]
      else
        []

/-- The limiting loop started with `total_chars = 0`. -/
def limitDocs (docs : List DocFrag) : List DocFrag :=
  limitDocsAux docs 0

/-- `ChatAgent._search_relevant_documents`: extract keywords; with no
keywords return `[]` without querying the store; otherwise query
`search_documents` (whose exception, never reachable here, would
propagate) and bound the result. -/
def searchRelevantDocuments (db : DB) (user_message : String) :
    Except String (List DocFrag) :=
  let keywords := extract_keywords user_message
  if keywords.isEmpty then
    Except.ok []
  else
    (db.search_documents keywords).map (fun docs => limitDocs (docs.map Document.toFrag))

/-! ## Gemini service (`src/services/gemini_service.py`) -/

/-- English fixed apology of `GeminiService.generate_response`. -/
def geminiApologyEn : String :=
  "I apologize, but I\x27m having trouble processing your request right now. Could you please try again? 😊"

/-- Hindi fixed apology of `GeminiService.generate_response`. -/
def geminiApologyHi : String :=
  "मुझे खेद है, लेकिन मुझे अभी आपके अनुरोध को संसाधित करने में परेशानी हो रही है। क्या आप कृपया पुनः प्रयास कर सकते हैं? 😊"

/-- Telugu fixed apology of `GeminiService.generate_response`. -/
def geminiApologyTe : String :=
  "క్షమించండి, కానీ నేను ప్రస్తుతం మీ అభ్యర్థనను ప్రాసెస్ చేయడంలో ఇబ్బంది పడుతున్నాను. దయచేసి మళ్లీ ప్రయత్నించగలరా? 😊"

/-- `error_messages.get(language, error_messages['en'])` in
`generate_response`. -/
def geminiApology (language : String) : String :=
  if language = "en" then geminiApologyEn
  else if language = "hi" then geminiApologyHi
  else if language = "te" then geminiApologyTe
  else geminiApologyEn

/-- `GeminiService.generate_response` (`src/services/gemini_service.py:54`).
Prompt assembly (knowledge-base text, last-5 history, language name) only
feeds the external model and is not modelled; the observable result is the
model reply on success, and on any model exception the fixed apology keyed
by the `language` argument — the caught error never reaches the return
value. -/
def generate_response (modelOutcome : Except String String) (language : String) : String :=
  match modelOutcome with
  | Except.ok t => t
  | Except.error _ => geminiApology language

/-- A `\w` character of Python regexes (ASCII word character). -/
def isWordChar (c : Char) : Bool :=
  c.isAlphanum || c == '_'

/-- `re.search(marker + r'\s*(\w+)', text)`: find the first occurrence of
`marker` followed (after greedy whitespace) by at least one word
character, and return that word. -/
def scanWordAfter (marker : List Char) : List Char → Option (List Char)
  | [] => none
  | c :: rest =>
    if marker.isPrefixOf (c :: rest) then
      let word := (((c :: rest).drop marker.length).dropWhile Char.isWhitespace).takeWhile isWordChar
      if word.isEmpty then scanWordAfter marker rest else some word
    else scanWordAfter marker rest

/-- `re.search(marker + r'\s*(.+?)(?:\n|$)', text)`: find the first
occurrence of `marker` followed (after whitespace) by at least one
character, captured up to the end of the line. -/
def scanLineAfter (marker : List Char) : List Char → Option (List Char)
  | [] => none
  | c :: rest =>
    if marker.isPrefixOf (c :: rest) then
      let line := (((c :: rest).drop marker.length).dropWhile Char.isWhitespace).takeWhile (fun ch => ch != '\n')
      if line.isEmpty then scanLineAfter marker rest else some line
    else scanLineAfter marker rest

/-- `pair.split('=', 1)` with `strip()` on both parts, applied only when
the pair contains `=`. -/
def splitKV (pair : String) : Option (String × String) :=
  let cs := pair.toList
  if cs.contains '=' then
    some ((String.mk (cs.takeWhile (fun ch => ch != '='))).trim,
          (String.mk ((cs.dropWhile (fun ch => ch != '=')).drop 1)).trim)
  else none

/-- The simple `key=value` comma-separated entity parsing of
`detect_intent` (duplicate keys are kept in order; the Python dict keeps
the last, which no verified property observes). -/
def parseEntities (s : String) : List (String × String) :=
  (s.split (fun c => c == ',')).filterMap splitKV

/-- The classifier output: intent, entities, confidence. -/
structure IntentResult where
  intent : String
  entities : List (String × String)
  confidence : String
  deriving Repr, DecidableEq

/-- The response-text parsing of `GeminiService.detect_intent`
(`src/services/gemini_service.py:167`): missing `INTENT:` defaults to
`general_query`, missing `CONFIDENCE:` to `medium`, missing or `none`
entities to empty. -/
def parseIntentResponse (text : String) : IntentResult :=
  let cs := text.toList
  let intent :=
    match scanWordAfter ("INTENT:".toList) cs with
    | some w => String.mk w
    | none => "general_query"
  let confidence :=
    match scanWordAfter ("CONFIDENCE:".toList) cs with
    | some w => String.mk w
    | none => "medium"
  let entities :=
    match scanLineAfter ("ENTITIES:".toList) cs with
    | some line =>
      if (String.mk line).toLower == "none" then [] else parseEntities (String.mk line)
    | none => []
  ⟨intent, entities, confidence⟩

/-- `GeminiService.detect_intent` (`src/services/gemini_service.py:142`):
parse the model text; on a model exception return the fixed fallback
`{intent: general_query, entities: {}, confidence: low}`. -/
def detect_intent (modelOutcome : Except String String) : IntentResult :=
  match modelOutcome with
  | Except.ok text => parseIntentResponse text
  | Except.error _ => ⟨"general_query", [], "low"⟩

/-- `GeminiService.draft_email` (`src/services/gemini_service.py:202`):
model text, or the fixed error string on a model exception (the
exception is caught inside and never propagates). -/
def draft_email (modelOutcome : Except String String) : String :=
  match modelOutcome with
  | Except.ok t => t
  | Except.error _ => "Error drafting email"

/-! ## Chat agent (`ChatAgent.handle_message`, `src/agents/chat_agent.py:19`) -/

/-- English fixed apology of `ChatAgent.handle_message`. -/
def chatApologyEn : String :=
  "I apologize, but I\x27m having trouble processing your message. Please try again."

/-- Hindi fixed apology of `ChatAgent.handle_message`. -/
def chatApologyHi : String :=
  "मुझे खेद है, लेकिन मुझे आपके संदेश को संसाधित करने में परेशानी हो रही है। कृपया पुनः प्रयास करें।"

/-- Telugu fixed apology of `ChatAgent.handle_message`. -/
def chatApologyTe : String :=
  "క్షమించండి, కానీ నేను మీ సందేశాన్ని ప్రాసెస్ చేయడంలో ఇబ్బంది పడుతున్నాను. దయచేసి మళ్లీ ప్రయత్నించండి."

/-- `error_messages.get(language, error_messages['en'])` in the chat
agent's exception handler. -/
def chatApology (language : String) : String :=
  if language = "en" then chatApologyEn
  else if language = "hi" then chatApologyHi
  else if language = "te" then chatApologyTe
  else chatApologyEn

/-- Result dictionary of `ChatAgent.handle_message`. -/
structure ChatResult where
  success : Bool
  response : String
  source_documents : List String
  language : Option String
  error : Option String
  deriving Repr, DecidableEq

/-- Environment of one `handle_message` run: the Gemini generation
outcome, and injected infrastructure failures at the fallible later steps
(history query, document search query, saving the AI reply) — each a
database call that can raise in the original and is then caught by the
agent's blanket `except`. -/
structure ChatEnv where
  genOutcome : Except String String
  historyFails : Bool
  searchFails : Bool
  saveAiFails : Bool
  deriving Repr

/-- The exception handler of `handle_message`: look the language up again
(`'en'` when `conversation_id` is falsy, i.e. 0) and answer the fixed
localized apology with `success: False` and the diagnostic error string. -/
def chatFailureResult (db : DB) (conversation_id : Nat) (e : String) : ChatResult :=
  let language :=
    if conversation_id = 0 then "en" else db.get_conversation_language conversation_id
  ⟨false, chatApology language, [], none, some e⟩

/-- `ChatAgent.handle_message`: look up the language, persist the
customer message, load history, retrieve context, generate the reply,
persist the AI reply, and return success; any raise inside is caught and
turned into the localized failure result. -/
def handle_message (env : ChatEnv) (db : DB) (conversation_id : Nat)
    (user_message : String) : ChatResult × DB :=
  let language := db.get_conversation_language conversation_id
  let db1 := db.save_message conversation_id "customer" user_message none
  if env.historyFails then
    (chatFailureResult db1 conversation_id "database error while loading history", db1)
  else
    if env.searchFails then
      (chatFailureResult db1 conversation_id "database error while searching documents", db1)
    else
      match searchRelevantDocuments db1 user_message with
      | Except.error e => (chatFailureResult db1 conversation_id e, db1)
      | Except.ok docs =>
        let ai_response := generate_response env.genOutcome language
        if env.saveAiFails then
          (chatFailureResult db1 conversation_id "database error while saving reply", db1)
        else
          let db2 := db1.save_message conversation_id "ai" ai_response
            ((docs.head?).map DocFrag.id)
          (⟨true, ai_response, docs.map DocFrag.filename, some language, none⟩, db2)

/-! ## Action agent (`ActionAgent.execute_action`, `src/agents/action_agent.py:22`) -/

/-- A handler's result dictionary (only the fields the dispatcher
protocol reads — `success` and `message`; the structured payloads
`ticket_data`, `order_data`, `return_data`, `email_content` are not
modelled since no verified property reads them). -/
structure HandlerResult where
  success : Bool
  message : String
  deriving Repr, DecidableEq

/-- The dispatcher's returned result: success flag, message and the id of
the Action record created for this attempt. -/
structure ActionResult where
  success : Bool
  message : String
  action_id : Nat
  deriving Repr, DecidableEq

/-- External environment of one dispatch: the `random` draws, the
best-effort email outcome (swallowed either way by `_create_ticket`), and
the Gemini drafting outcome (caught inside `draft_email`). -/
structure ActionEnv where
  ticketRand : Nat
  orderRand : Nat
  orderStatusIdx : Nat
  rmaRand : Nat
  emailSendOk : Bool
  draftOutcome : Except String String
  deriving Repr

/-- `data.get(key, default)` on the deserialized action data. -/
def dataGet (data : List (String × String)) (key dflt : String) : String :=
  match data.find? (fun kv => kv.1 = key) with
  | some kv => kv.2
  | none => dflt

/-- `ActionAgent._create_ticket`: subscripting a missing conversation
raises; otherwise builds the ticket and always succeeds (the email
notification failure is swallowed by its own `try`). -/
def createTicketHandler (env : ActionEnv) (db : DB) (conversation_id : Nat)
    (data : List (String × String)) : Except String HandlerResult :=
  match db.get_conversation_by_id conversation_id with
  | none => Except.error "TypeError: NoneType object is not subscriptable"
  | some _conv =>
    let ticket_id := "TKT-" ++ toString (10000 + env.ticketRand % 90000)
    Except.ok ⟨true, "Support ticket " ++ ticket_id ++
      " created successfully! Our team will respond within 24 hours."⟩

/-- `ActionAgent._draft_email`: subscripting a missing conversation
raises; the Gemini call cannot raise (caught inside `draft_email`). -/
def draftEmailHandler (env : ActionEnv) (db : DB) (conversation_id : Nat)
    (data : List (String × String)) : Except String HandlerResult :=
  match db.get_conversation_by_id conversation_id with
  | none => Except.error "TypeError: NoneType object is not subscriptable"
  | some _conv =>
    let _email_content := draft_email env.draftOutcome
    Except.ok ⟨true, "Email drafted successfully!"⟩

/-- The four canned delivery states of `_check_order`. -/
def orderStatuses : List String :=
  ["Processing - Expected ship date: Tomorrow",
   "Shipped - Tracking #: TRK123456789, Arriving in 2-3 days",
   "Out for Delivery - Expected today by 8 PM",
   "Delivered - Signed by: Resident"]

/-- `ActionAgent._check_order`: mock order id when none supplied,
pseudo-random canned status; always succeeds. -/
def checkOrderHandler (env : ActionEnv) (data : List (String × String)) :
    Except String HandlerResult :=
  let order_id := dataGet data "order_id" ("ORD-" ++ toString (1000 + env.orderRand % 9000))
  let status := orderStatuses.getD (env.orderStatusIdx % 4) ""
  Except.ok ⟨true, "Order " ++ order_id ++ " status: " ++ status⟩

/-- `ActionAgent._return_product`: synthesized RMA number; always
succeeds. -/
def returnProductHandler (env : ActionEnv) (data : List (String × String)) :
    Except String HandlerResult :=
  let rma_number := "RMA-" ++ toString (10000 + env.rmaRand % 90000)
  Except.ok ⟨true, "Return authorized! RMA Number: " ++ rma_number ++
    ". Instructions sent to your email."⟩

/-- The `if/elif` dispatch chain inside the dispatcher's `try`, including
the unknown-type fallthrough result. -/
def runHandler (env : ActionEnv) (db : DB) (conversation_id : Nat)
    (action_type : String) (data : List (String × String)) :
    Except String HandlerResult :=
  if action_type = "create_ticket" then createTicketHandler env db conversation_id data
  else if action_type = "draft_email" then draftEmailHandler env db conversation_id data
  else if action_type = "check_order" then checkOrderHandler env data
  else if action_type = "return_product" then returnProductHandler env data
  else Except.ok ⟨false, "Unknown action type: " ++ action_type⟩

/-- `ActionAgent.execute_action`: always create the Action record first
(status `pending`), run the handler, set the final status from the
result's `success` flag, attach `action_id`; a handler exception is
caught, the status forced to `failed`, and a generic failure result with
the action id returned — the dispatcher itself never raises. -/
def execute_action (env : ActionEnv) (db : DB) (conversation_id : Nat)
    (action_type : String) (data : List (String × String)) : ActionResult × DB :=
  let action_id := db.nextActionId
  let db1 := db.create_action conversation_id action_type data
  match runHandler env db1 conversation_id action_type data with
  | Except.ok result =>
    let status := if result.success then "completed" else "failed"
    let db2 := db1.update_action_status action_id status
    (⟨result.success, result.message, action_id⟩, db2)
  | Except.error e =>
    let db2 := db1.update_action_status action_id "failed"
    (⟨false, "Error executing action: " ++ e, action_id⟩, db2)

/-! ## HTTP boundary (`src/app.py`) -/

/-- Request body of `POST /api/customer/execute-action`; each field may
be absent from the JSON. -/
structure ExecActionReq where
  conversation_id : Option Nat
  action_type : Option String
  action_data : Option (List (String × String))
  deriving Repr

/-- The `execute_action` route (`src/app.py:382`): 400 when the body or a
required field is missing, otherwise HTTP 200 carrying the dispatcher's
result unchanged, whatever its `success` flag. -/
def execute_action_endpoint (env : ActionEnv) (db : DB)
    (body : Option ExecActionReq) : (Nat × Except String ActionResult) × DB :=
  match body with
  | none => ((400, Except.error "conversation_id and action_type are required"), db)
  | some req =>
    match req.conversation_id, req.action_type with
    | some conversation_id, some action_type =>
      let step := execute_action env db conversation_id action_type (req.action_data.getD [])
      ((200, Except.ok step.1), step.2)
    | _, _ => ((400, Except.error "conversation_id and action_type are required"), db)

/-- Response body of `POST /api/customer/send-message`. -/
structure SendMessageResp where
  success : Bool
  ai_response : String
  source_documents : List String
  action_taken : Option (String × ActionResult)
  error : Option String
  deriving Repr

/-- The dispatch condition of the boundary layer (`src/app.py:333`):
`intent != 'general_query' and confidence != 'low'`. -/
def shouldDispatch (r : IntentResult) : Bool :=
  r.intent != "general_query" && r.confidence != "low"

/-- The `send_message` route (`src/app.py:302`): validate, run the chat
agent (400 on pipeline failure), classify intent on the raw message, and
dispatch the action only under `shouldDispatch`; a dispatched action is
reported in `action_taken` only when it succeeded. -/
def send_message_endpoint (chatEnv : ChatEnv) (intentOutcome : Except String String)
    (actionEnv : ActionEnv) (db : DB) (body : Option (Nat × String)) :
    (Nat × SendMessageResp) × DB :=
  match body with
  | none =>
    ((400, ⟨false, "", [], none, some "conversation_id and message are required"⟩), db)
  | some (conversation_id, user_message) =>
    let step := handle_message chatEnv db conversation_id user_message
    let chatRes := step.1
    let db1 := step.2
    if chatRes.success then
      let ir := detect_intent intentOutcome
      if shouldDispatch ir then
        let action_data := [("user_message", user_message), ("intent", ir.intent)] ++ ir.entities
        let astep := execute_action actionEnv db1 conversation_id ir.intent action_data
        let taken := if astep.1.success then some (ir.intent, astep.1) else none
        ((200, ⟨true, chatRes.response, chatRes.source_documents, taken, none⟩), astep.2)
      else
        ((200, ⟨true, chatRes.response, chatRes.source_documents, none, none⟩), db1)
    else
      ((400, ⟨false, chatRes.response, [], none, chatRes.error⟩), db1)

/-! ## Concrete fixtures -/

/-- A default action environment for concrete runs. -/
def actionEnv0 : ActionEnv :=
  ⟨0, 0, 0, 0, true, Except.ok "Dear customer, ..."⟩

/-- A chat environment whose history query fails. -/
def chatEnvHistFail : ChatEnv :=
  ⟨Except.ok "Sure, here is the answer.", true, false, false⟩

/-- Total character count of a retrieved context (the loop's
`total_chars` over the returned fragments). -/
def totalChars (docs : List DocFrag) : Nat :=
  (docs.map (fun d => d.content.length)).sum

/-- A live document whose structured content mentions the warranty. -/
def warrantyDoc : Document :=
  ⟨1, "laptop_manual.txt", "Laptop X1 manual text", "WARRANTY: warranty 2 years", none⟩

/-- A store holding only `warrantyDoc`. -/
def warrantyDB : DB :=
  ⟨[warrantyDoc], [], [], [], 1, 1⟩

/-! ## Supporting lemmas -/

/-- Lowercasing never produces an ASCII uppercase letter. -/
theorem toLower_isUpper_false (c : Char) : (c.toLower).isUpper = false := by
  have h90 : (90 : Nat) < UInt32.size := by decide
  have h65 : (65 : Nat) < UInt32.size := by decide
  unfold Char.toLower
  simp only []
  split
  · rename_i h
    obtain ⟨h1, h2⟩ := h
    generalize Char.toNat c = n at h1 h2 ⊢
    interval_cases n <;> decide
  · rename_i h
    rw [Bool.eq_false_iff]
    intro hu
    apply h
    simp only [Char.isUpper, Bool.and_eq_true, decide_eq_true_eq] at hu
    obtain ⟨hu1, hu2⟩ := hu
    exact ⟨UInt32.le_toNat_of_le h65 hu1, UInt32.toNat_le_of_le h90 hu2⟩

/-- Every character of a token produced by the whitespace splitter comes
from the input (or from the accumulator). -/
theorem mem_of_mem_splitWsAux (cs : List Char) :
    ∀ acc t, t ∈ splitWsAux cs acc → ∀ c, c ∈ t → c ∈ cs ∨ c ∈ acc := by
  induction cs with
  | nil =>
    intro acc t ht c hc
    simp only [splitWsAux] at ht
    split at ht
    · simp at ht
    · simp only [List.mem_singleton] at ht
      subst ht
      exact Or.inr (List.mem_reverse.mp hc)
  | cons c0 cs ih =>
    intro acc t ht c hc
    simp only [splitWsAux] at ht
    split at ht
    · split at ht
      · rcases ih [] t ht c hc with h | h
        · exact Or.inl (List.mem_cons_of_mem _ h)
        · simp at h
      · rcases List.mem_cons.mp ht with h | h
        · subst h
          exact Or.inr (List.mem_reverse.mp hc)
        · rcases ih [] t h c hc with h2 | h2
          · exact Or.inl (List.mem_cons_of_mem _ h2)
          · simp at h2
    · rcases ih (c0 :: acc) t ht c hc with h | h
      · exact Or.inl (List.mem_cons_of_mem _ h)
      · rcases List.mem_cons.mp h with h2 | h2
        · subst h2
          exact Or.inl (List.mem_cons_self _ _)
        · exact Or.inr h2

/-- Characters of an extracted keyword are alphanumeric (they survived the
`isalnum` filter) and not uppercase (the message was lowercased first). -/
theorem extract_keywords_chars {message k : String}
    (hk : k ∈ extract_keywords message) :
    ∀ c, c ∈ k.toList → c.isAlphanum = true ∧ c.isUpper = false := by
  intro c hc
  have hdedup : k ∈ (candidateKeywords message).dedup :=
    List.mem_of_mem_take hk
  have hcand : k ∈ candidateKeywords message := List.mem_dedup.mp hdedup
  have hmap : k ∈ (rawTokens message).map (fun w => String.mk (cleanWord w)) :=
    List.mem_of_mem_filter hcand
  rcases List.mem_map.mp hmap with ⟨w, hw, rfl⟩
  have hc' : c ∈ cleanWord w := hc
  have hfil := List.mem_filter.mp hc'
  refine ⟨hfil.2, ?_⟩
  have hcw : c ∈ w := hfil.1
  rcases mem_of_mem_splitWsAux (lowerList message) [] w hw c hcw with h | h
  · rcases List.mem_map.mp h with ⟨c0, _, rfl⟩
    exact toLower_isUpper_false c0
  · simp at h

/-- Extracted keywords pass the keep condition of the loop. -/
theorem extract_keywords_keep {message k : String}
    (hk : k ∈ extract_keywords message) : keepKeyword k = true :=
  (List.mem_filter.mp (List.mem_dedup.mp (List.mem_of_mem_take hk))).2

/-- C5: `ChatAgent._extract_keywords` returns a deduplicated list of at
most 5 terms; each term has at least 3 characters, is not a stop word, and
is all-lowercase alphanumeric; empty input, and input whose tokens are all
stop words, yield the empty list. -/
theorem c5_extract_keywords_contract :
    (∀ message : String,
        (extract_keywords message).length ≤ 5 ∧
        (extract_keywords message).Nodup ∧
        (∀ k, k ∈ extract_keywords message →
          3 ≤ k.length ∧ k ∉ stop_words ∧
          ∀ c, c ∈ k.toList → c.isAlphanum = true ∧ c.isUpper = false)) ∧
    extract_keywords "" = [] ∧
    (∀ message : String,
        (∀ t, t ∈ rawTokens message → String.mk (cleanWord t) ∈ stop_words) →
        extract_keywords message = []) := by
  refine ⟨fun message => ⟨?_, ?_, fun k hk => ⟨?_, ?_, extract_keywords_chars hk⟩⟩, by decide, ?_⟩
  · exact (List.length_take 5 _).trans_le (Nat.min_le_left _ _)
  · exact (List.take_sublist _ _).nodup (List.nodup_dedup _)
  · have h := extract_keywords_keep hk
    simp [keepKeyword] at h
    omega
  · have h := extract_keywords_keep hk
    simp [keepKeyword] at h
    exact h.1.2
  · intro message hall
    have : candidateKeywords message = [] := by
      rw [candidateKeywords, List.filter_eq_nil_iff]
      intro k hkmap
      rcases List.mem_map.mp hkmap with ⟨w, hw, rfl⟩
      have hstop := hall w hw
      simp only [keepKeyword, Bool.and_eq_true, Bool.not_eq_true']
      intro hcontr
      exact absurd (List.elem_eq_true_of_mem hstop) (by simp_all)
    simp [extract_keywords, this]

/-- C5 witness: concrete run on "My battery DIED" (keyword "battery") and
on the all-stop-words message "The is". -/
theorem c5_witness :
    3 ≤ ("battery" : String).length ∧
    ("battery" : String) ∉ stop_words ∧
    ('b'.isAlphanum = true ∧ 'b'.isUpper = false) ∧
    extract_keywords "The is" = [] := by
  have h1 := (c5_extract_keywords_contract.1 "My battery DIED").2.2 "battery" (by decide)
  have h2 := c5_extract_keywords_contract.2.2 "The is" (by decide)
  exact ⟨h1.1, h1.2.1, h1.2.2 'b' (by decide), h2⟩

/-- The limiting loop keeps within the remaining budget `8000 - total`. -/
theorem totalChars_limitDocsAux_le (docs : List DocFrag) :
    ∀ total, totalChars (limitDocsAux docs total) ≤ 8000 - total := by
  induction docs with
  | nil =>
    intro total
    simp [limitDocsAux, totalChars]
  | cons d rest ih =>
    intro total
    simp only [limitDocsAux]
    split
    · rename_i h
      simp only [totalChars, List.map_cons, List.sum_cons] at *
      have hrec := ih (total + d.content.length)
      omega
    · rename_i h
      split
      · rename_i h2
        simp only [totalChars, List.map_cons, List.map_nil, List.sum_cons, List.sum_nil]
        have hlen : (String.mk (d.content.toList.take (8000 - total))).length =
            min (8000 - total) d.content.toList.length := by
          show (d.content.toList.take (8000 - total)).length =
            min (8000 - total) d.content.toList.length
          exact List.length_take _ _
        omega
      · simp [totalChars]

/-- C4: the context retriever returns at most 8000 characters in total;
with no extracted keywords the result is empty without touching the
store; the first document that would cross the cap is truncated to the
remaining budget when that remainder exceeds 500 characters and dropped
otherwise. -/
theorem c4_context_retriever_bound :
    (∀ docs : List DocFrag, totalChars (limitDocs docs) ≤ 8000) ∧
    (∀ (db : DB) (message : String) (frags : List DocFrag),
        searchRelevantDocuments db message = Except.ok frags →
        totalChars frags ≤ 8000) ∧
    (∀ (db : DB) (message : String),
        extract_keywords message = [] →
        searchRelevantDocuments db message = Except.ok []) ∧
    (∀ (d : DocFrag) (rest : List DocFrag) (total : Nat),
        ¬ total + d.content.length < 8000 →
        limitDocsAux (d :: rest) total =
          if 8000 - total > 500 then
            [{ d with content := String.mk (d.content.toList.take (8000 - total)) }]
          else []) := by
  have hbound : ∀ docs : List DocFrag, totalChars (limitDocs docs) ≤ 8000 := by
    intro docs
    have h := totalChars_limitDocsAux_le docs 0
    simpa [limitDocs] using h
  refine ⟨hbound, ?_, ?_, ?_⟩
  · intro db message frags h
    rw [searchRelevantDocuments] at h
    split at h
    · simp only [Except.ok.injEq] at h
      subst h
      simp [totalChars]
    · rename_i hne
      rw [DB.search_documents] at h
      rw [if_neg (by simpa using hne)] at h
      simp only [Except.map, Except.ok.injEq] at h
      subst h
      exact hbound _
  · intro db message h
    rw [searchRelevantDocuments]
    simp [h]
  · intro d rest total h
    simp only [limitDocsAux]
    rw [if_neg h]

/-- C4 witness: a store whose only matching document is small, queried
with a message yielding no keywords, returns the empty context; and a
concrete oversized fragment list is cut to at most 8000 characters. -/
theorem c4_witness :
    searchRelevantDocuments warrantyDB "the" = Except.ok [] ∧
    totalChars (limitDocs [⟨1, "a.txt", String.mk (List.replicate 9000 'x')⟩]) ≤ 8000 :=
  ⟨c4_context_retriever_bound.2.2.1 warrantyDB "the" (by decide),
   c4_context_retriever_bound.1 [⟨1, "a.txt", String.mk (List.replicate 9000 'x')⟩]⟩

/-- Every list is a Boolean prefix of itself. -/
theorem isPrefixOf_self_eq_true (l : List Char) : l.isPrefixOf l = true := by
  induction l with
  | nil => rfl
  | cons c cs ih => simp [List.isPrefixOf, ih]

/-- A suffix is found by the substring scan. -/
theorem containsSub_append_self (pre s : List Char) :
    containsSub (pre ++ s) s = true := by
  induction pre with
  | nil =>
    cases s with
    | nil => rfl
    | cons c cs =>
      simp only [List.nil_append, containsSub, Bool.or_eq_true]
      exact Or.inl (isPrefixOf_self_eq_true (c :: cs))
  | cons c pre ih =>
    simp only [List.cons_append, containsSub, Bool.or_eq_true]
    exact Or.inr ih

/-- The chat agent never writes to the `actions` table. -/
theorem handle_message_preserves_actions (env : ChatEnv) (db : DB)
    (conversation_id : Nat) (user_message : String) :
    (handle_message env db conversation_id user_message).2.actions = db.actions := by
  simp only [handle_message]
  split
  · rfl
  · split
    · rfl
    · split
      · rfl
      · split
        · rfl
        · rfl

/-- C3: a Response Generator failure yields the fixed pre-translated
apology keyed by the conversation language (Hindi for `hi`, Telugu for
`te`, English for `en` and for any other code), independent of the raw
error text; and a whole-pipeline failure of `ChatAgent.handle_message`
returns `success = false` together with the chat agent's fixed localized
apology for the conversation's language. -/
theorem c3_localized_failure_apologies :
    (∀ e : String, generate_response (Except.error e) "hi" = geminiApologyHi) ∧
    (∀ e : String, generate_response (Except.error e) "te" = geminiApologyTe) ∧
    (∀ e : String, generate_response (Except.error e) "en" = geminiApologyEn) ∧
    (∀ e lang : String, lang ≠ "en" → lang ≠ "hi" → lang ≠ "te" →
        generate_response (Except.error e) lang = geminiApologyEn) ∧
    (∀ e e' lang : String,
        generate_response (Except.error e) lang = generate_response (Except.error e') lang) ∧
    (∀ (env : ChatEnv) (db : DB) (conversation_id : Nat) (user_message : String),
        env.historyFails = true ∨ env.searchFails = true ∨ env.saveAiFails = true →
        (handle_message env db conversation_id user_message).1.success = false ∧
        (handle_message env db conversation_id user_message).1.response =
          chatApology (if conversation_id = 0 then "en"
            else db.get_conversation_language conversation_id)) := by
  refine ⟨fun e => rfl, fun e => rfl, fun e => rfl, ?_, fun e e' lang => rfl, ?_⟩
  · intro e lang h1 h2 h3
    simp [generate_response, geminiApology, h1, h2, h3]
  · intro env db conversation_id user_message hfail
    have hlang : (db.save_message conversation_id "customer" user_message
        none).get_conversation_language conversation_id =
        db.get_conversation_language conversation_id := rfl
    cases hH : env.historyFails with
    | true =>
      constructor <;> simp [handle_message, chatFailureResult, hH, hlang]
    | false =>
      cases hS : env.searchFails with
      | true =>
        constructor <;> simp [handle_message, chatFailureResult, hH, hS, hlang]
      | false =>
        cases hA : env.saveAiFails with
        | true =>
          rcases hsr : searchRelevantDocuments
              (db.save_message conversation_id "customer" user_message none)
              user_message with e | docs <;>
            constructor <;>
              simp [handle_message, chatFailureResult, hH, hS, hA, hsr, hlang]
        | false =>
          rw [hH, hS, hA] at hfail
          simp at hfail

/-- C3 witness: concrete Hindi failure reply and a concrete failing
pipeline run on a store with no conversations (language defaults `en`). -/
theorem c3_witness :
    generate_response (Except.error "boom") "hi" = geminiApologyHi ∧
    (handle_message chatEnvHistFail warrantyDB 1 "hello").1.success = false ∧
    (handle_message chatEnvHistFail warrantyDB 1 "hello").1.response = chatApologyEn := by
  have h := c3_localized_failure_apologies.2.2.2.2.2 chatEnvHistFail warrantyDB 1 "hello"
    (Or.inl rfl)
  exact ⟨c3_localized_failure_apologies.1 "boom", h.1, h.2⟩

/-- C8: the customer message is persisted before any later pipeline step,
so when a later step (history load, document search, or saving the AI
reply) fails, the pipeline returns failure but the stored transcript
still ends with exactly the customer's message. -/
theorem c8_customer_message_survives_failure :
    ∀ (env : ChatEnv) (db : DB) (conversation_id : Nat) (user_message : String),
      env.historyFails = true ∨ env.searchFails = true ∨ env.saveAiFails = true →
      (handle_message env db conversation_id user_message).1.success = false ∧
      (handle_message env db conversation_id user_message).2.messages =
        db.messages ++ [⟨db.nextMessageId, conversation_id, "customer", user_message, none⟩] := by
  intro env db conversation_id user_message hfail
  cases hH : env.historyFails with
  | true =>
    constructor <;> simp [handle_message, chatFailureResult, hH, DB.save_message]
  | false =>
    cases hS : env.searchFails with
    | true =>
      constructor <;> simp [handle_message, chatFailureResult, hH, hS, DB.save_message]
    | false =>
      cases hA : env.saveAiFails with
      | true =>
        rcases hsr : searchRelevantDocuments
            (db.save_message conversation_id "customer" user_message none)
            user_message with e | docs <;>
          constructor <;>
            simp [handle_message, chatFailureResult, hH, hS, hA, hsr] <;>
              simp [DB.save_message]
      | false =>
        rw [hH, hS, hA] at hfail
        simp at hfail

/-- C8 witness: a concrete failing run on the empty-transcript store
leaves exactly the customer's message behind. -/
theorem c8_witness :
    (handle_message chatEnvHistFail warrantyDB 7 "my laptop broke").1.success = false ∧
    (handle_message chatEnvHistFail warrantyDB 7 "my laptop broke").2.messages =
      [⟨1, 7, "customer", "my laptop broke", none⟩] :=
  c8_customer_message_survives_failure chatEnvHistFail warrantyDB 7 "my laptop broke"
    (Or.inl rfl)

/-- C9: `Database.search_documents` with an empty keyword list builds a
WHERE clause with no conditions and raises instead of returning an empty
result; the error is unreachable through the pipeline because
`ChatAgent._search_relevant_documents` returns `[]` before querying
whenever extraction yields no keywords — for every store and message the
retriever result is an `ok` value. -/
theorem c9_empty_keywords_raise_guarded :
    (∀ db : DB, db.search_documents [] =
      Except.error "sqlite3.OperationalError: incomplete input (WHERE clause with no conditions)") ∧
    (∀ (db : DB) (message : String),
        (searchRelevantDocuments db message).isOk = true) ∧
    (∀ (db : DB) (message : String),
        extract_keywords message = [] →
        searchRelevantDocuments db message = Except.ok []) := by
  refine ⟨fun db => rfl, ?_, fun db message h => by simp [searchRelevantDocuments, h]⟩
  intro db message
  cases hE : (extract_keywords message).isEmpty
  · simp [searchRelevantDocuments, DB.search_documents, hE, Except.map, Except.isOk, Except.toBool]
  · simp [searchRelevantDocuments, hE, Except.isOk, Except.toBool]

/-- C9 witness: the concrete store `warrantyDB` — the empty-keyword call
errors, while the pipeline entry with a stop-word-only message returns
the empty context. -/
theorem c9_witness :
    warrantyDB.search_documents [] =
      Except.error "sqlite3.OperationalError: incomplete input (WHERE clause with no conditions)" ∧
    searchRelevantDocuments warrantyDB "is it" = Except.ok [] :=
  ⟨c9_empty_keywords_raise_guarded.1 warrantyDB,
   c9_empty_keywords_raise_guarded.2.2 warrantyDB "is it" (by decide)⟩

/-- C2: every dispatch attempt — recognized action type or not, handler
success, failure or exception — creates exactly one Action record, in
`pending` status before the handler runs; after the call the record's
status is `completed` when the returned result's success flag is true and
`failed` otherwise, never `pending`; the result's success flag equals the
handler's (false on a handler exception); and the returned result always
carries the new record's id.  The dispatcher is a total function: no
exception escapes. -/
theorem c2_dispatch_audit_invariant :
    ∀ (env : ActionEnv) (db : DB) (conversation_id : Nat) (action_type : String)
      (data : List (String × String)),
      ((db.create_action conversation_id action_type data).actions.getLast? =
        some ⟨db.nextActionId, conversation_id, action_type, data, "pending"⟩) ∧
      ((execute_action env db conversation_id action_type data).2.actions.length =
        db.actions.length + 1) ∧
      ((execute_action env db conversation_id action_type data).2.actions.getLast? =
        some ⟨db.nextActionId, conversation_id, action_type, data,
          if (execute_action env db conversation_id action_type data).1.success
          then "completed" else "failed"⟩) ∧
      ((if (execute_action env db conversation_id action_type data).1.success
        then "completed" else "failed") ≠ ("pending" : String)) ∧
      ((execute_action env db conversation_id action_type data).1.success =
        (((runHandler env (db.create_action conversation_id action_type data)
            conversation_id action_type data).toOption.map HandlerResult.success).getD false)) ∧
      ((execute_action env db conversation_id action_type data).1.action_id =
        db.nextActionId) := by
  intro env db conversation_id action_type data
  have hfp : ("failed" : String) ≠ "pending" := by decide
  have hcp : ("completed" : String) ≠ "pending" := by decide
  have hpend : (db.create_action conversation_id action_type data).actions.getLast? =
      some ⟨db.nextActionId, conversation_id, action_type, data, "pending"⟩ := by
    simp [DB.create_action, List.getLast?_concat]
  rcases hrh : runHandler env (db.create_action conversation_id action_type data)
      conversation_id action_type data with e | r
  · have hexec : execute_action env db conversation_id action_type data =
        (⟨false, "Error executing action: " ++ e, db.nextActionId⟩,
         (db.create_action conversation_id action_type data).update_action_status
           db.nextActionId "failed") := by
      simp only [execute_action]
      rw [hrh]
    rw [hexec]
    refine ⟨hpend, ?_, ?_, hfp, by simp [hrh, Except.toOption], rfl⟩
    · simp [DB.create_action, DB.update_action_status]
    · simp [DB.create_action, DB.update_action_status, List.getLast?_concat]
  · have hexec : execute_action env db conversation_id action_type data =
        (⟨r.success, r.message, db.nextActionId⟩,
         (db.create_action conversation_id action_type data).update_action_status
           db.nextActionId (if r.success then "completed" else "failed")) := by
      simp only [execute_action]
      rw [hrh]
    rw [hexec]
    refine ⟨hpend, ?_, ?_, ?_, by simp [hrh, Except.toOption], rfl⟩
    · simp [DB.create_action, DB.update_action_status]
    · simp [DB.create_action, DB.update_action_status, List.getLast?_concat]
    · cases r.success
      · exact hfp
      · exact hcp

/-- C7: an unrecognized action type yields `success = false` with a
message naming the type (the type string occurs in the message), and the
Action record created for the attempt ends in status `failed`. -/
theorem c7_unknown_action_type_failure :
    ∀ (env : ActionEnv) (db : DB) (conversation_id : Nat)
      (data : List (String × String)) (action_type : String),
      action_type ∉ ["create_ticket", "draft_email", "check_order", "return_product"] →
      (execute_action env db conversation_id action_type data).1.success = false ∧
      (execute_action env db conversation_id action_type data).1.message =
        "Unknown action type: " ++ action_type ∧
      containsSub (execute_action env db conversation_id action_type data).1.message.toList
        action_type.toList = true ∧
      (execute_action env db conversation_id action_type data).2.actions.getLast? =
        some ⟨db.nextActionId, conversation_id, action_type, data, "failed"⟩ := by
  intro env db conversation_id data action_type h
  simp only [List.mem_cons, List.not_mem_nil, or_false, not_or] at h
  obtain ⟨h1, h2, h3, h4⟩ := h
  have hrh : runHandler env (db.create_action conversation_id action_type data)
      conversation_id action_type data =
      Except.ok ⟨false, "Unknown action type: " ++ action_type⟩ := by
    simp [runHandler, h1, h2, h3, h4]
  have hexec : execute_action env db conversation_id action_type data =
      (⟨false, "Unknown action type: " ++ action_type, db.nextActionId⟩,
       (db.create_action conversation_id action_type data).update_action_status
         db.nextActionId "failed") := by
    simp only [execute_action]
    rw [hrh]
    rfl
  rw [hexec]
  refine ⟨rfl, rfl, ?_, ?_⟩
  · exact containsSub_append_self ("Unknown action type: ".toList) action_type.toList
  · simp [DB.create_action, DB.update_action_status, List.getLast?_concat]

/-- C7 witness: a concrete dispatch of `action_type = "foo"`. -/
theorem c7_witness :
    (execute_action actionEnv0 warrantyDB 1 "foo" []).1.success = false ∧
    (execute_action actionEnv0 warrantyDB 1 "foo" []).1.message = "Unknown action type: foo" ∧
    containsSub (execute_action actionEnv0 warrantyDB 1 "foo" []).1.message.toList
      ("foo" : String).toList = true ∧
    (execute_action actionEnv0 warrantyDB 1 "foo" []).2.actions.getLast? =
      some ⟨1, 1, "foo", [], "failed"⟩ :=
  c7_unknown_action_type_failure actionEnv0 warrantyDB 1 [] "foo" (by decide)

/-- C6: on total classifier failure, `detect_intent` returns the fixed
`general_query` / empty entities / `low` fallback; the boundary layer
dispatches only when the intent is not `general_query` and the confidence
is not `low`, so a classifier failure never creates an action and never
reports one. -/
theorem c6_classifier_failure_suppresses_dispatch :
    (∀ e : String, detect_intent (Except.error e) = ⟨"general_query", [], "low"⟩) ∧
    (∀ e : String, shouldDispatch (detect_intent (Except.error e)) = false) ∧
    (∀ (chatEnv : ChatEnv) (actionEnv : ActionEnv) (db : DB)
       (conversation_id : Nat) (user_message e : String),
      ((send_message_endpoint chatEnv (Except.error e) actionEnv db
          (some (conversation_id, user_message))).2.actions = db.actions) ∧
      ((send_message_endpoint chatEnv (Except.error e) actionEnv db
          (some (conversation_id, user_message))).1.2.action_taken = none)) := by
  refine ⟨fun e => rfl, fun e => rfl, ?_⟩
  intro chatEnv actionEnv db conversation_id user_message e
  simp only [send_message_endpoint]
  split
  · have hsd : shouldDispatch (detect_intent (Except.error e)) = false := rfl
    rw [if_neg]
    · exact ⟨handle_message_preserves_actions chatEnv db conversation_id user_message, rfl⟩
    · simp [hsd]
  · exact ⟨handle_message_preserves_actions chatEnv db conversation_id user_message, rfl⟩

/-- C10: the execute-action route answers HTTP 200 with the dispatcher's
result for every dispatcher outcome — including `success = false` results
such as unknown action types (shown concretely for `"foo"`) — and 400
only when the body or a required field is missing. -/
theorem c10_execute_action_endpoint_always_200 :
    (∀ (env : ActionEnv) (db : DB),
      execute_action_endpoint env db none =
        ((400, Except.error "conversation_id and action_type are required"), db)) ∧
    (∀ (env : ActionEnv) (db : DB) (atypeOpt : Option String)
       (dataOpt : Option (List (String × String))),
      (execute_action_endpoint env db (some ⟨none, atypeOpt, dataOpt⟩)).1.1 = 400) ∧
    (∀ (env : ActionEnv) (db : DB) (cidOpt : Option Nat)
       (dataOpt : Option (List (String × String))),
      (execute_action_endpoint env db (some ⟨cidOpt, none, dataOpt⟩)).1.1 = 400) ∧
    (∀ (env : ActionEnv) (db : DB) (conversation_id : Nat) (action_type : String)
       (dataOpt : Option (List (String × String))),
      execute_action_endpoint env db (some ⟨some conversation_id, some action_type, dataOpt⟩) =
        ((200, Except.ok (execute_action env db conversation_id action_type
            (dataOpt.getD [])).1),
         (execute_action env db conversation_id action_type (dataOpt.getD [])).2)) ∧
    ((execute_action_endpoint actionEnv0 warrantyDB
        (some ⟨some 1, some "foo", none⟩)).1.1 = 200) ∧
    ((execute_action_endpoint actionEnv0 warrantyDB
        (some ⟨some 1, some "foo", none⟩)).1.2 =
      Except.ok ⟨false, "Unknown action type: foo", 1⟩) := by
  refine ⟨fun env db => rfl, fun env db atypeOpt dataOpt => ?_,
    fun env db cidOpt dataOpt => ?_, fun env db conversation_id action_type dataOpt => rfl,
    rfl, rfl⟩
  · cases atypeOpt <;> rfl
  · cases cidOpt <;> rfl

/-- C1: the claim states that no soft-deleted document appears in
`Database.search_documents` results.  The query in the source has no
`deleted_at IS NULL` condition, so after soft-deleting the only document
it is still returned by a keyword search (while `get_all_documents`,
which does filter, returns nothing).  Concrete run: delete document 1,
then search for "warranty". -/
theorem c1_search_returns_soft_deleted_document :
    (warrantyDB.delete_document 1 42).1 = true ∧
    ((warrantyDB.delete_document 1 42).2.documents.map Document.deleted_at = [some 42]) ∧
    (warrantyDB.delete_document 1 42).2.search_documents ["warranty"] =
      Except.ok [{ warrantyDoc with deleted_at := some 42 }] ∧
    (warrantyDB.delete_document 1 42).2.get_all_documents = [] := by
  refine ⟨rfl, rfl, rfl, rfl⟩

end Supgen
